import Mathlib

/-!
Verification of the Context Bridge backend core: a shallow embedding in Lean 4
of the Python sources

  * `src/backend/src/context_bridge/types.py`            (data model)
  * `src/backend/src/context_bridge/context_analyzer.py` (page analysis and
    instruction generation)
  * `src/backend/src/context_bridge/interfaces.py`       (provider interface,
    combined context+screenshot call)
  * `src/backend/src/context_bridge/providers/rest_provider.py` (REST provider)
  * `src/examples/react-fastapi/backend/main.py`         (session protocol)

Python strings become `String`, optional values become `Option`, Python `int`
becomes `Int`/`Nat` as appropriate, and Python floats in the confidence
computation are modelled exactly by rationals `ℚ` (the algorithm only adds and
clamps small decimal constants).  Impure fields the analyzer attaches to each
instruction (`uuid.uuid4()` identifiers and wall-clock timestamps) carry no
information about the analysis and are omitted from the instruction model;
every other field of each emitted instruction dictionary is modelled.
-/

namespace ContextBridge

/-- A single-quote character as a string (ASCII 39), used to build the
selector and message strings that the Python source writes with f-strings. -/
def squote : String := String.mk [Char.ofNat 39]

/-- `listPrefixOf p l` is true when `p` is a prefix of `l`. -/
def listPrefixOf : List Char → List Char → Bool
  | [], _ => true
  | _ :: _, [] => false
  | p :: ps, h :: hs => p == h && listPrefixOf ps hs

/-- `hasSubstr p l` is true when `p` occurs contiguously inside `l`. -/
def hasSubstr : List Char → List Char → Bool
  | pat, [] => pat.isEmpty
  | pat, c :: t => listPrefixOf pat (c :: t) || hasSubstr pat t

/-- Python's `pat in hay` on strings: substring containment. -/
def strContains (hay pat : String) : Bool := hasSubstr pat.toList hay.toList

/-- Python `str.lower()`, modelled character-wise (the classifier only
compares against ASCII keywords). -/
def strLower (s : String) : String := String.mk (s.toList.map Char.toLower)

/-- Rendering of an `Optional[str]` inside a Python f-string: `None` prints as
the four letters `None`. -/
def optRepr : Option String → String
  | some s => s
  | none => "None"

/-- Python truthiness of an `Optional[str]`: `None` and `""` are falsy. -/
def strTruthy : Option String → Bool
  | some s => !(s == "")
  | none => false

/-- f-string rendering of Python `a or b` for two `Optional[str]` values. -/
def pyOrStr (a b : Option String) : String :=
  if strTruthy a then optRepr a else optRepr b

/-- Python truthiness of `not field.value` used by the analyzer: an absent or
empty string value counts as empty. -/
def isEmptyVal : Option String → Bool
  | none => true
  | some s => s == ""

/-! ## Data model (`types.py`) -/

/-- `InputData` from `types.py`: one form control. -/
structure InputData where
  id : Option String := none
  name : Option String := none
  type : String := "text"
  value : Option String := none
  placeholder : Option String := none
  required : Bool := false
deriving DecidableEq, Repr

/-- `FormData` from `types.py`: a web form. -/
structure FormData where
  id : Option String := none
  name : Option String := none
  action : Option String := none
  method : Option String := none
  fields : List InputData := []
deriving DecidableEq, Repr

/-- `DOMData` from `types.py`. -/
structure DOMData where
  text : String := ""
  html : Option String := none
  forms : List FormData := []
  inputs : List InputData := []
deriving DecidableEq, Repr

/-- `ViewportData` from `types.py`. -/
structure ViewportData where
  width : Int := 0
  height : Int := 0
  scroll_x : Int := 0
  scroll_y : Int := 0
deriving DecidableEq, Repr

/-- `PageContext` from `types.py`.  The free-form `metadata: Dict[str, Any]`
is modelled as a string-to-string association list; no analyzed code reads it. -/
structure PageContext where
  url : String
  title : String
  timestamp : Int
  dom : Option DOMData := none
  viewport : Option ViewportData := none
  metadata : List (String × String) := []
deriving DecidableEq, Repr

/-- `ScreenshotOptions` from `types.py`. -/
structure ScreenshotOptions where
  format : String := "png"
  quality : ℚ := 0.8
  full_page : Bool := false
  clip : Option (Int × Int × Int × Int) := none
deriving DecidableEq, Repr

/-- `ContextProviderConfig` from `types.py`. -/
structure ContextProviderConfig where
  base_url : Option String := none
  auth_headers : List (String × String) := []
  whitelisted_pages : List String := []
  enable_screenshots : Bool := false
  screenshot_options : ScreenshotOptions := {}
  timeout : Nat := 30
deriving DecidableEq, Repr

/-- `ContextAnalysisIssue` from `types.py`. -/
structure ContextAnalysisIssue where
  type : String
  severity : String
  message : String
  element : Option String := none
deriving DecidableEq, Repr

/-- `ContextAnalysisSuggestion` from `types.py`. -/
structure ContextAnalysisSuggestion where
  type : String
  message : String
  action : Option String := none
deriving DecidableEq, Repr

/-- `ContextAnalysis` from `types.py`.  The confidence is a rational in the
model (see the header comment). -/
structure ContextAnalysis where
  pageType : String
  userIntent : Option String := none
  issues : List ContextAnalysisIssue := []
  suggestions : List ContextAnalysisSuggestion := []
  confidence : ℚ := 0
deriving DecidableEq, Repr

/-- The type-specific `data` payload of one generated instruction dictionary
(`context_analyzer.py`).  Each constructor corresponds to one literal dict
shape in the source; the carried strings are the varying entries. -/
inductive InstructionData where
  /-- `{action: "highlight_field", selector, message}` -/
  | highlight_field (selector : String) (message : String)
  /-- the aggregate `"Please complete N required fields to continue"`
  notification emitted by `_generate_form_instructions` -/
  | complete_required_fields (message : String)
  /-- the checkout notification of `_generate_checkout_instructions` -/
  | checkout_notice (message : String)
  /-- the error-page notification of `_generate_error_instructions` -/
  | error_notice (message : String)
  /-- `{action: "show_tooltip", ...}` from `_generate_usability_instructions` -/
  | show_tooltip (selector : String) (content : String)
  /-- `{action: "show_error", selector, message}` from
  `_generate_issue_instructions` for validation issues -/
  | show_error (selector : String) (message : String)
  /-- the accessibility warning notification of
  `_generate_issue_instructions` -/
  | accessibility_notice (message : String)
deriving DecidableEq, Repr

/-- One generated instruction: the `type`, `priority` and `data` entries of
the dictionaries built by `context_analyzer.py` (the impure `id` and
`timestamp` entries are omitted, see the header comment). -/
structure Instruction where
  type : String
  priority : String
  data : InstructionData
deriving DecidableEq, Repr

/-! ## Context analyzer (`context_analyzer.py`) -/

/-- `_determine_page_type`: classify a page by URL keywords, then title+text
keywords, then presence of forms, defaulting to `"content"`. -/
def determine_page_type (context : PageContext) : String :=
  let url := strLower context.url
  let title := strLower context.title
  let text :=
    match context.dom with
    | some d => if !(d.text == "") then strLower d.text else ""
    | none => ""
  if ["checkout", "cart", "payment", "billing"].any (fun k => strContains url k) then
    "checkout"
  else if ["dashboard", "admin", "panel"].any (fun k => strContains url k) then
    "dashboard"
  else if ["error", "404", "500", "not found", "server error"].any
      (fun k => strContains (title ++ text) k) then
    "error"
  else if ["loading", "please wait", "processing"].any
      (fun k => strContains (title ++ text) k) then
    "loading"
  else
    match context.dom with
    | some d => if d.forms.length > 0 then "form" else "content"
    | none => "content"

/-- `_infer_user_intent`. -/
def infer_user_intent (_context : PageContext) (page_type : String) : Option String :=
  if page_type == "form" then some "form_filling"
  else if page_type == "checkout" then some "purchasing"
  else if page_type == "dashboard" then some "browsing"
  else some "browsing"

/-- The selector the analyzer cites for a field:
`f"#{id}" if id else f"[name='{name}']"` (Python truthiness on `id`). -/
def selector_for (i : InputData) : String :=
  if strTruthy i.id then "#" ++ optRepr i.id
  else "[name=" ++ squote ++ optRepr i.name ++ squote ++ "]"

/-- `_identify_issues`: validation issues for empty required page-level
inputs, accessibility issues for inputs lacking placeholder and name, a
performance issue for very large text, a usability issue for narrow
viewports.  Absent DOM data yields no issues. -/
def identify_issues (context : PageContext) : List ContextAnalysisIssue :=
  match context.dom with
  | none => []
  | some dom =>
    ((dom.inputs.filter (fun i => i.required && isEmptyVal i.value)).map
      (fun i =>
        { type := "validation", severity := "medium"
          message := "Required field " ++ squote ++ pyOrStr i.name i.id ++ squote
            ++ " is empty"
          element := some (selector_for i) }))
    ++ ((dom.inputs.filter (fun i => !(strTruthy i.placeholder) && !(strTruthy i.name))).map
      (fun i =>
        { type := "accessibility", severity := "low"
          message := "Input field missing label or placeholder"
          element := some (if strTruthy i.id then "#" ++ optRepr i.id else "input") }))
    ++ (if !(dom.text == "") && dom.text.length > 50000 then
        [{ type := "performance", severity := "medium"
           message := "Page contains large amount of text content"
           element := some "body" }]
      else [])
    ++ (match context.viewport with
      | some v =>
        if v.width < 768 then
          [{ type := "usability", severity := "low"
             message := "Mobile viewport detected - ensure responsive design"
             element := some "viewport" }]
        else []
      | none => [])

/-- `_generate_suggestions`. -/
def generate_suggestions (context : PageContext) (page_type : String)
    (issues : List ContextAnalysisIssue) : List ContextAnalysisSuggestion :=
  (if page_type == "form" &&
      (match context.dom with
        | some d => !d.forms.isEmpty
        | none => false) then
    [{ type := "improvement", message := "Consider adding form validation feedback"
       action := some "add_validation" }]
  else [])
  ++ (if page_type == "checkout" then
    [{ type := "next_step", message := "Review your order before proceeding to payment"
       action := some "review_order" }]
  else [])
  ++ (let validation_issues := issues.filter (fun i => i.type == "validation")
    if !validation_issues.isEmpty then
      [{ type := "improvement"
         message := "Fix " ++ toString validation_issues.length
           ++ " validation issues before proceeding"
         action := some "fix_validation" }]
    else [])

/-- Python truthiness of `context.dom and context.dom.text`. -/
def domTextTruthy (context : PageContext) : Bool :=
  match context.dom with
  | some d => !(d.text == "")
  | none => false

/-- Python truthiness of `context.dom and context.dom.forms`. -/
def domFormsTruthy (context : PageContext) : Bool :=
  match context.dom with
  | some d => !d.forms.isEmpty
  | none => false

/-- `_calculate_confidence`: base 0.5, bonuses for text/forms/viewport and for
found issues, clamped above by 1. -/
def calculate_confidence (context : PageContext) (issues : List ContextAnalysisIssue)
    (_suggestions : List ContextAnalysisSuggestion) : ℚ :=
  let c0 : ℚ := 0.5
  let c1 := if domTextTruthy context then c0 + 0.2 else c0
  let c2 := if domFormsTruthy context then c1 + 0.1 else c1
  let c3 := if context.viewport.isSome then c2 + 0.1 else c2
  let c4 := if !issues.isEmpty then
      c3 + min 0.2 ((issues.length : ℚ) * 0.05)
    else c3
  min 1 c4

/-- `analyze_context`: classification, intent, issues, suggestions and
confidence for one snapshot. -/
def analyze_context (context : PageContext) : ContextAnalysis :=
  let page_type := determine_page_type context
  let user_intent := infer_user_intent context page_type
  let issues := identify_issues context
  let suggestions := generate_suggestions context page_type issues
  let confidence := calculate_confidence context issues suggestions
  { pageType := page_type, userIntent := user_intent, issues := issues
    suggestions := suggestions, confidence := confidence }

/-- The empty required fields of one form:
`[f for f in form.fields if f.required and not f.value]`. -/
def required_empty_fields (form : FormData) : List InputData :=
  form.fields.filter (fun f => f.required && isEmptyVal f.value)

/-- The instructions `_generate_form_instructions` emits for one form: one
`highlight_field` per empty required field, capped at the first 3, then one
aggregate completion notification if any field was empty. -/
def form_instructions_for (form : FormData) : List Instruction :=
  let empties := required_empty_fields form
  ((empties.take 3).map (fun f =>
    { type := "form_assistance", priority := "medium"
      data := InstructionData.highlight_field (selector_for f)
        ("This field is required: " ++ pyOrStr f.name (some (pyOrStr f.id (some "Field")))) }))
  ++ (if empties.length > 0 then
      [{ type := "contextual_notification", priority := "medium"
         data := InstructionData.complete_required_fields
           ("Please complete " ++ toString empties.length
             ++ " required fields to continue") }]
    else [])

/-- `_generate_form_instructions`: the per-form instructions, concatenated in
form order (the early `return []` for a missing DOM or empty form list
coincides with the empty concatenation). -/
def generate_form_instructions (context : PageContext) : List Instruction :=
  match context.dom with
  | none => []
  | some dom => (dom.forms.map form_instructions_for).flatten

/-- `_generate_checkout_instructions`. -/
def generate_checkout_instructions : List Instruction :=
  [{ type := "contextual_notification", priority := "high"
     data := InstructionData.checkout_notice
       ("You" ++ squote ++ "re in the checkout process. Please review your order carefully.") }]

/-- `_generate_error_instructions`. -/
def generate_error_instructions : List Instruction :=
  [{ type := "contextual_notification", priority := "high"
     data := InstructionData.error_notice
       ("It looks like there" ++ squote
         ++ "s an error on this page. Would you like to go back or try refreshing?") }]

/-- `_generate_usability_instructions`: a mobile tooltip when the viewport is
present and narrower than 768. -/
def generate_usability_instructions (context : PageContext) : List Instruction :=
  match context.viewport with
  | some v =>
    if v.width < 768 then
      [{ type := "content_instruction", priority := "low"
         data := InstructionData.show_tooltip "body"
           ("Tip: You" ++ squote
             ++ "re viewing this on a mobile device. Tap and hold for more options.") }]
    else []
  | none => []

/-- `_generate_issue_instructions` for one issue. -/
def generate_issue_instructions (issue : ContextAnalysisIssue) : List Instruction :=
  if issue.type == "validation" && strTruthy issue.element then
    [{ type := "form_assistance"
       priority := if issue.severity == "high" then "high" else "medium"
       data := InstructionData.show_error (optRepr issue.element) issue.message }]
  else if issue.type == "accessibility" then
    [{ type := "contextual_notification", priority := "low"
       data := InstructionData.accessibility_notice
         ("Accessibility issue detected: " ++ issue.message) }]
  else []

/-- `generate_instructions`: page-type specific instructions, then usability
instructions, then one batch per identified issue. -/
def generate_instructions (context : PageContext) (analysis : ContextAnalysis) :
    List Instruction :=
  (if analysis.pageType == "form" then generate_form_instructions context else [])
  ++ (if analysis.pageType == "checkout" then generate_checkout_instructions else [])
  ++ (if analysis.pageType == "error" then generate_error_instructions else [])
  ++ generate_usability_instructions context
  ++ (analysis.issues.map generate_issue_instructions).flatten

/-- Recognizer for `highlight_field` instructions. -/
def isHighlightField (i : Instruction) : Bool :=
  match i.data with
  | InstructionData.highlight_field _ _ => true
  | _ => false

/-- Recognizer for the aggregate "complete required fields" notification. -/
def isAggregateNotice (i : Instruction) : Bool :=
  match i.data with
  | InstructionData.complete_required_fields _ => true
  | _ => false

/-! ## Behavior analysis (`context_analyzer.py`) -/

/-- Whether a snapshot has an empty required page-level input, as tested by
the form-abandonment loop of `_identify_behavior_patterns` (the loop guards
on `form_ctx.dom and form_ctx.dom.inputs` and then filters). -/
def hasEmptyRequiredInput (c : PageContext) : Bool :=
  match c.dom with
  | some d => d.inputs.any (fun i => i.required && isEmptyVal i.value)
  | none => false

/-- `_identify_behavior_patterns`: form abandonment (two or more form-type
snapshots, one of them with an empty required input), checkout abandonment
(a checkout-type snapshot and no URL anywhere containing "success" or
"thank"), and error encounters; empty for histories shorter than 2. -/
def identify_behavior_patterns (context_history : List PageContext) : List String :=
  if context_history.length < 2 then []
  else
    let form_pages := context_history.filter (fun c => determine_page_type c == "form")
    let checkout_pages :=
      context_history.filter (fun c => determine_page_type c == "checkout")
    let error_pages := context_history.filter (fun c => determine_page_type c == "error")
    (if form_pages.length > 1 && form_pages.any hasEmptyRequiredInput then
        ["form_abandonment"]
      else [])
    ++ (if !checkout_pages.isEmpty
          && !(context_history.any (fun c =>
            strContains (strLower c.url) "success" || strContains (strLower c.url) "thank")) then
        ["checkout_abandonment"]
      else [])
    ++ (if !error_pages.isEmpty then ["error_encountered"] else [])

/-- The result dictionary of `analyze_user_behavior`.  The two numeric
summary entries that involve Python set-iteration order and float division
(`average_time_per_page`, `most_visited_page_type`) are not read by any
analyzed property and are omitted; `page_types` keeps first-occurrence order
for the `set` of classifications. -/
structure UserBehavior where
  pages_visited : Nat
  page_types : List String
  behavior_patterns : List String
deriving DecidableEq, Repr

/-- `analyze_user_behavior`: `{}` (here `none`) on an empty history,
otherwise the visit summary and the behavior patterns. -/
def analyze_user_behavior (context_history : List PageContext) : Option UserBehavior :=
  if context_history.isEmpty then none
  else
    some
      { pages_visited := ((context_history.map (fun c => c.url)).dedup).length
        page_types := ((context_history.map determine_page_type).dedup)
        behavior_patterns := identify_behavior_patterns context_history }

/-! ## Provider interface (`interfaces.py`) -/

/-- `ContextResponse` from `types.py`: context plus optional screenshot. -/
structure ContextResponse where
  context : PageContext
  screenshot : Option String := none
deriving DecidableEq, Repr

/-- The error classes a `get_screenshot` implementation can raise (all are
Python `Exception` subclasses: transport `RuntimeError`, `PermissionError`,
precondition `ValueError`, data-shaped `RuntimeError`). -/
inductive ScreenshotError where
  | transport (msg : String)
  | permission (msg : String)
  | precondition (msg : String)
  | data (msg : String)
deriving DecidableEq, Repr

/-- `ContextProvider.get_context_with_screenshot` from `interfaces.py`,
parameterized by the two abstract methods it calls: fetch the context
(propagating its failure), then try the screenshot, swallowing any
`Exception` and leaving the screenshot absent. -/
def get_context_with_screenshot {E : Type}
    (get_current_context : Option String → Except E PageContext)
    (get_screenshot : Option String → Option ScreenshotOptions → Except ScreenshotError String)
    (url : Option String) (options : Option ScreenshotOptions) :
    Except E ContextResponse :=
  match get_current_context url with
  | Except.error e => Except.error e
  | Except.ok context =>
    match get_screenshot url options with
    | Except.error _ => Except.ok { context := context, screenshot := none }
    | Except.ok s => Except.ok { context := context, screenshot := some s }

/-! ## REST provider (`rest_provider.py`) -/

/-- `is_screenshot_allowed`: false when screenshots are disabled, true when
no whitelist is configured, otherwise true iff some whitelist pattern is a
substring of the URL. -/
def is_screenshot_allowed (config : ContextProviderConfig) (url : String) : Bool :=
  if !config.enable_screenshots then false
  else if config.whitelisted_pages.isEmpty then true
  else config.whitelisted_pages.any (fun pattern => strContains url pattern)

/-- The mutable state of a `RESTContextProvider` relevant to its contract
(the lazily-created HTTP session object is transport plumbing and carries no
analyzed state). -/
structure RESTProviderState where
  config : ContextProviderConfig
  last_known_url : Option String := none
deriving DecidableEq, Repr

/-- The errors `get_current_context` can raise: the missing-base-URL
`ValueError`, the `RuntimeError` wrapping an `aiohttp.ClientError`, and the
`KeyError` escaping `_parse_context` when a mandatory response field is
absent. -/
inductive FetchError where
  | valueError (msg : String)
  | runtimeError (msg : String)
  | keyError (field : String)
deriving DecidableEq, Repr

/-- The wire shape of one input dictionary in a `/current-context` response
(every key optional; `InputData(**field)` fills dataclass defaults). -/
structure RawInput where
  id : Option String := none
  name : Option String := none
  type : Option String := none
  value : Option String := none
  placeholder : Option String := none
  required : Option Bool := none
deriving DecidableEq, Repr

/-- The wire shape of one form dictionary. -/
structure RawForm where
  id : Option String := none
  name : Option String := none
  action : Option String := none
  method : Option String := none
  fields : Option (List RawInput) := none
deriving DecidableEq, Repr

/-- The wire shape of the `dom` entry. -/
structure RawDOM where
  text : Option String := none
  html : Option String := none
  forms : Option (List RawForm) := none
  inputs : Option (List RawInput) := none
deriving DecidableEq, Repr

/-- The wire shape of the `viewport` entry. -/
structure RawViewport where
  width : Option Int := none
  height : Option Int := none
  scrollX : Option Int := none
  scrollY : Option Int := none
deriving DecidableEq, Repr

/-- The wire shape of a `/current-context` response body (an absent or
Python-falsy `dom`/`viewport` entry is `none` here). -/
structure RawContext where
  url : Option String := none
  title : Option String := none
  timestamp : Option Int := none
  dom : Option RawDOM := none
  viewport : Option RawViewport := none
  metadata : Option (List (String × String)) := none
deriving DecidableEq, Repr

/-- `InputData(**field)` with dataclass defaults for absent keys. -/
def parse_input (r : RawInput) : InputData :=
  { id := r.id, name := r.name, type := r.type.getD "text", value := r.value
    placeholder := r.placeholder, required := r.required.getD false }

/-- Reconstruction of one `FormData` inside `_parse_context`. -/
def parse_form (r : RawForm) : FormData :=
  { id := r.id, name := r.name, action := r.action, method := r.method
    fields := (r.fields.getD []).map parse_input }

/-- `_parse_context`: rebuild the nested `PageContext`; the top-level `url`,
`title` and `timestamp` keys are mandatory (a missing one raises `KeyError`). -/
def parse_context (data : RawContext) : Except FetchError PageContext :=
  let dom := data.dom.map (fun d =>
    { text := d.text.getD "", html := d.html
      forms := (d.forms.getD []).map parse_form
      inputs := (d.inputs.getD []).map parse_input : DOMData })
  let viewport := data.viewport.map (fun v =>
    { width := v.width.getD 0, height := v.height.getD 0
      scroll_x := v.scrollX.getD 0, scroll_y := v.scrollY.getD 0 : ViewportData })
  match data.url with
  | none => Except.error (FetchError.keyError "url")
  | some u =>
    match data.title with
    | none => Except.error (FetchError.keyError "title")
    | some t =>
      match data.timestamp with
      | none => Except.error (FetchError.keyError "timestamp")
      | some ts =>
        Except.ok
          { url := u, title := t, timestamp := ts, dom := dom, viewport := viewport
            metadata := data.metadata.getD [] }

/-- `RESTContextProvider.get_current_context`, with the HTTP round trip
abstracted as its outcome `response` (`Except.error` stands for an
`aiohttp.ClientError`).  The provider fails fast without a configured base
URL; otherwise it records a truthy `url` argument as the last known URL
before the request, re-records the response's own `url` field if present,
and parses the body.  Returns the provider state after the call together
with the result. -/
def rest_get_current_context (st : RESTProviderState) (url : Option String)
    (response : Except String RawContext) :
    RESTProviderState × Except FetchError PageContext :=
  if !(strTruthy st.config.base_url) then
    (st, Except.error (FetchError.valueError "base_url is required for REST provider"))
  else
    let st1 := if strTruthy url then { st with last_known_url := url } else st
    match response with
    | Except.error e =>
      (st1, Except.error (FetchError.runtimeError ("Failed to fetch context: " ++ e)))
    | Except.ok data =>
      let st2 :=
        match data.url with
        | some u => { st1 with last_known_url := some u }
        | none => st1
      (st2, parse_context data)

/-! ## Session protocol (`examples/react-fastapi/backend/main.py`) -/

/-- Update (or add) a key in an association list, in place. -/
def setKey {α : Type} (l : List (String × α)) (k : String) (v : α) :
    List (String × α) :=
  match l with
  | [] => [(k, v)]
  | (k2, v2) :: t => if k2 == k then (k, v) :: t else (k2, v2) :: setKey t k v

/-- Look a key up in an association list. -/
def getKey {α : Type} (l : List (String × α)) (k : String) : Option α :=
  match l with
  | [] => none
  | (k2, v) :: t => if k2 == k then some v else getKey t k

/-- Delete a key from an association list (`del d[k]`). -/
def eraseKey {α : Type} (l : List (String × α)) (k : String) : List (String × α) :=
  l.filter (fun p => !(p.1 == k))

/-- The process-wide mutable storage of `main.py`: `context_storage`,
`screenshot_storage` and the per-session `context_history`. -/
structure ServerState where
  context_storage : List (String × PageContext) := []
  screenshot_storage : List (String × String) := []
  context_history : List (String × List PageContext) := []
deriving Repr

/-- Outbound WebSocket messages of `main.py` (the impure `timestamp` entry
and free-text diagnostic fields are omitted; each constructor is one
`send_text` shape). -/
inductive WsOutgoing where
  | auth_response
  | instruction (i : Instruction)
  | context_received
  | context_error (msg : String)
  | screenshot_ack (url : String) (size : Nat)
  | echo
deriving DecidableEq, Repr

/-- Inbound WebSocket messages of `main.py`, with the `context` and
`context_change` payloads already deserialized into a `PageContext` (this
models the success path of `convert_dict_to_page_context`; the claims below
only concern messages whose payload deserializes successfully). -/
inductive WsIncoming where
  | auth
  | context (data : PageContext)
  | context_change (data : PageContext)
  | screenshot (url : Option String) (shot : Option String)
  | instruction_result (instructionId : Option String) (success : Bool)
  | pong
  | other
deriving Repr

/-- The history trim of `analyze_and_send_instructions`: after appending,
keep only the last 10 entries (`history[-10:]`). -/
def trimHistory (h : List PageContext) : List PageContext :=
  if h.length > 10 then h.drop (h.length - 10) else h

/-- `analyze_and_send_instructions`: analyze the snapshot, stream one
outbound `instruction` message per generated instruction, and append the
snapshot to this session's history, trimmed to the last 10 entries. -/
def analyze_and_send_instructions (st : ServerState) (session_id : String)
    (context : PageContext) : ServerState × List WsOutgoing :=
  let instrs := generate_instructions context (analyze_context context)
  let h := (getKey st.context_history session_id).getD []
  let h2 := trimHistory (h ++ [context])
  ({ st with context_history := setKey st.context_history session_id h2 },
    instrs.map WsOutgoing.instruction)

/-- One iteration of the `websocket_endpoint` message loop: dispatch on the
inbound message type.  A `context` message stores the snapshot under its URL
and under `"default"`, runs analysis and streaming, and acknowledges with
`context_received`; a `context_change` message only runs analysis and
streaming; a `screenshot` message with a payload stores it and acknowledges;
`instruction_result` and `pong` are logged only; unknown types are echoed. -/
def handle_message (st : ServerState) (session_id : String) :
    WsIncoming → ServerState × List WsOutgoing
  | WsIncoming.auth => (st, [WsOutgoing.auth_response])
  | WsIncoming.context ctx =>
    let st1 := { st with
      context_storage := setKey (setKey st.context_storage ctx.url ctx) "default" ctx }
    let r := analyze_and_send_instructions st1 session_id ctx
    (r.1, r.2 ++ [WsOutgoing.context_received])
  | WsIncoming.context_change ctx => analyze_and_send_instructions st session_id ctx
  | WsIncoming.screenshot url shot =>
    match shot with
    | some s =>
      let u := url.getD "unknown"
      ({ st with
          screenshot_storage := setKey (setKey st.screenshot_storage u s) "default" s },
        [WsOutgoing.screenshot_ack u s.length])
    | none => (st, [])
  | WsIncoming.instruction_result _ _ => (st, [])
  | WsIncoming.pong => (st, [])
  | WsIncoming.other => (st, [WsOutgoing.echo])

/-- The `WebSocketDisconnect` handler: drop this session's history. -/
def ws_disconnect (st : ServerState) (session_id : String) : ServerState :=
  { st with context_history := eraseKey st.context_history session_id }

/-- The server state at process start: all three stores empty. -/
def initServerState : ServerState := {}

/-- Run a session that receives one `context` message per element of `msgs`,
from state `st`, keeping only the final state. -/
def run_context_session (st : ServerState) (session_id : String)
    (msgs : List PageContext) : ServerState :=
  msgs.foldl (fun s c => (handle_message s session_id (WsIncoming.context c)).1) st

/-- Modelled from the spec, for the refinement claim about page
classification (§4.3): evaluate, in fixed priority order, lowercased-URL
substring checks (checkout/cart/payment/billing, then
dashboard/admin/panel), then lowercased title+text substring checks
(error/404/500/not found/server error, then loading/please wait/processing),
then "has at least one form", else "content". -/
def page_type_spec (context : PageContext) : String :=
  let url := strLower context.url
  let title := strLower context.title
  let text :=
    match context.dom with
    | some d => if !(d.text == "") then strLower d.text else ""
    | none => ""
  if ["checkout", "cart", "payment", "billing"].any (fun k => strContains url k) then
    "checkout"
  else if ["dashboard", "admin", "panel"].any (fun k => strContains url k) then
    "dashboard"
  else if ["error", "404", "500", "not found", "server error"].any
      (fun k => strContains (title ++ text) k) then
    "error"
  else if ["loading", "please wait", "processing"].any
      (fun k => strContains (title ++ text) k) then
    "loading"
  else if (match context.dom with
      | some d => decide (d.forms.length > 0)
      | none => false) then
    "form"
  else "content"

/-! ## Concrete fixtures for witnesses and counterexamples -/

/-- A required email field with no value. -/
def emailField : InputData := { name := some "email", required := true }

/-- The §8 scenario context: url `/signup`, one form with a single required
empty `email` field, no page-level inputs. -/
def ctxSignup : PageContext :=
  { url := "/signup", title := "", timestamp := 0
    dom := some { forms := [{ fields := [emailField] }] } }

/-- A form with two empty required fields. -/
def formTwoEmpty : FormData :=
  { fields := [{ name := some "a", required := true },
               { name := some "b", required := true }] }

/-- A neutral-URL context whose DOM has two forms, each with two empty
required fields. -/
def ctxTwoForms : PageContext :=
  { url := "u", title := "", timestamp := 0
    dom := some { forms := [formTwoEmpty, formTwoEmpty] } }

/-- A neutral-URL context whose DOM has one form with two empty required
fields. -/
def ctxOneForm : PageContext :=
  { url := "u", title := "", timestamp := 0, dom := some { forms := [formTwoEmpty] } }

/-- A context whose URL contains `checkout` and whose title contains
`error`. -/
def ctxCheckoutError : PageContext :=
  { url := "/checkout/step-1", title := "Error occurred", timestamp := 0 }

/-- A form-classified snapshot with an empty required page-level input. -/
def ctxFormAbandon : PageContext :=
  { url := "/a", title := "", timestamp := 0
    dom := some { forms := [{ fields := [] }]
                  inputs := [{ name := some "e", required := true }] } }

/-- A minimal content-page context (no DOM, no viewport). -/
def ctxPlain : PageContext := { url := "/c", title := "", timestamp := 0 }

/-- A provider configuration with screenshots disabled. -/
def cfgOff : ContextProviderConfig :=
  { enable_screenshots := false, whitelisted_pages := ["app"] }

/-- A REST provider state with a configured base URL and a previous last
known URL. -/
def stRest : RESTProviderState :=
  { config := { base_url := some "http://frontend" }, last_known_url := some "old" }

end ContextBridge

namespace ContextBridge

/-! ## Claim theorems -/

/-- C3: `get_context_with_screenshot` is best-effort about the screenshot:
whenever the context fetch succeeds and the screenshot fetch fails with any
error (transport, permission, precondition or data), the call does not fail
and returns the fetched context with an absent screenshot. -/
theorem claim_C3 {E : Type} (get_ctx : Option String → Except E PageContext)
    (get_shot : Option String → Option ScreenshotOptions → Except ScreenshotError String)
    (url : Option String) (options : Option ScreenshotOptions)
    (ctx : PageContext) (e : ScreenshotError)
    (hctx : get_ctx url = Except.ok ctx)
    (hshot : get_shot url options = Except.error e) :
    get_context_with_screenshot get_ctx get_shot url options =
      Except.ok { context := ctx, screenshot := none } := by
  unfold get_context_with_screenshot
  rw [hctx, hshot]

/-- Witness for C3 at a concrete provider whose screenshot call raises a
transport error. -/
theorem claim_C3_witness :
    get_context_with_screenshot (E := String) (fun _ => Except.ok ctxPlain)
      (fun _ _ => Except.error (ScreenshotError.transport "connection refused"))
      none none = Except.ok { context := ctxPlain, screenshot := none } :=
  claim_C3 _ _ none none ctxPlain (ScreenshotError.transport "connection refused")
    rfl rfl

/-- C4: `is_screenshot_allowed` is false whenever screenshots are disabled,
true when enabled with an empty whitelist, and otherwise true exactly when
some whitelist pattern occurs as a substring of the URL. -/
theorem claim_C4 (config : ContextProviderConfig) (url : String) :
    (config.enable_screenshots = false → is_screenshot_allowed config url = false) ∧
    (config.enable_screenshots = true → config.whitelisted_pages = [] →
      is_screenshot_allowed config url = true) ∧
    (config.enable_screenshots = true → config.whitelisted_pages ≠ [] →
      (is_screenshot_allowed config url = true ↔
        ∃ p ∈ config.whitelisted_pages, strContains url p = true)) := by
  refine ⟨fun h => ?_, fun h hw => ?_, fun h hw => ?_⟩
  · simp [is_screenshot_allowed, h]
  · simp [is_screenshot_allowed, h, hw]
  · simp [is_screenshot_allowed, h, hw, List.any_eq_true]

/-- Witness for C4: with screenshots disabled the answer is false for a
concrete URL. -/
theorem claim_C4_witness : is_screenshot_allowed cfgOff "http://x/app/page" = false :=
  (claim_C4 cfgOff "http://x/app/page").1 rfl

/-- C6: page classification follows the fixed priority cascade of the spec
(the code's classifier coincides with the spec-worded one on every context),
and in particular any context whose lowercased URL contains `checkout`
classifies as `"checkout"` regardless of title and text. -/
theorem claim_C6 (context : PageContext) :
    determine_page_type context = page_type_spec context ∧
    (strContains (strLower context.url) "checkout" = true →
      determine_page_type context = "checkout") := by
  constructor
  · unfold determine_page_type page_type_spec
    rcases context.dom with _ | d <;> simp
  · intro h
    unfold determine_page_type
    simp [h]

/-- Witness for C6: a URL containing `checkout` with `error` in the title
still classifies as checkout. -/
theorem claim_C6_witness : determine_page_type ctxCheckoutError = "checkout" :=
  (claim_C6 ctxCheckoutError).2 (by decide)

/-- C10 counterexample: the claim quantifies over every non-None `url`
argument, but the source guards the update with Python truthiness
(`if url:`), so the empty string — a non-None argument — does not update the
last known URL: after a failing call with `url=""` the state keeps its old
value instead of the argument. -/
theorem claim_C10_counterexample :
    (rest_get_current_context stRest (some "") (Except.error "boom")).1.last_known_url
        = some "old" ∧
    (rest_get_current_context stRest (some "") (Except.error "boom")).1.last_known_url
        ≠ some "" := by
  refine ⟨by decide, by decide⟩

/-- C10 (amended to non-empty url arguments): with a configured (truthy)
base URL and a non-None, non-empty `url` argument, the provider records the
argument as its last known URL before issuing the request, so when the
request fails with a transport error the call raises the wrapping
`RuntimeError` while the last-known-URL state remains updated to the
argument. -/
theorem claim_C10 (st : RESTProviderState) (u : String) (e : String)
    (hbase : strTruthy st.config.base_url = true) (hu : u ≠ "") :
    (rest_get_current_context st (some u) (Except.error e)).1.last_known_url = some u ∧
    (rest_get_current_context st (some u) (Except.error e)).2 =
      Except.error (FetchError.runtimeError ("Failed to fetch context: " ++ e)) := by
  have ht : strTruthy (some u) = true := by simp [strTruthy, hu]
  unfold rest_get_current_context
  simp [hbase, ht]

/-- Witness for C10 at a concrete provider state and failing transport. -/
theorem claim_C10_witness :
    (rest_get_current_context stRest (some "http://new") (Except.error "boom")).1.last_known_url
        = some "http://new" ∧
    (rest_get_current_context stRest (some "http://new") (Except.error "boom")).2 =
      Except.error (FetchError.runtimeError "Failed to fetch context: boom") :=
  claim_C10 stRest "http://new" "boom" (by decide) (by decide)

/-- C2 counterexample: in the §8 signup scenario the DOM carries the email
field only inside the form (`dom.inputs` is empty), and `_identify_issues`
scans only the page-level `dom.inputs`, so the issue list is empty — in
particular it contains no validation issue citing the email selector, contrary
to the claim. -/
theorem claim_C2_counterexample :
    (analyze_context ctxSignup).issues = [] ∧
    ¬ (∃ i ∈ (analyze_context ctxSignup).issues, i.type = "validation") := by
  refine ⟨by decide, by decide⟩

/-- C2 (amended: the issues list is empty because the scenario has no
page-level inputs and issue detection reads only `dom.inputs`): the signup
scenario classifies as `"form"`, yields no issues, and its instructions
contain exactly one `highlight_field` instruction — citing the
`[name='email']` selector — plus exactly one aggregate notification whose
message cites "1 required field". -/
theorem claim_C2 :
    (analyze_context ctxSignup).pageType = "form" ∧
    (analyze_context ctxSignup).issues = [] ∧
    (generate_instructions ctxSignup (analyze_context ctxSignup)).countP isHighlightField
        = 1 ∧
    (generate_instructions ctxSignup (analyze_context ctxSignup)).countP isAggregateNotice
        = 1 ∧
    (Instruction.mk "form_assistance" "medium"
        (InstructionData.highlight_field
          ("[name=" ++ squote ++ "email" ++ squote ++ "]")
          "This field is required: email")
      ∈ generate_instructions ctxSignup (analyze_context ctxSignup)) ∧
    (∃ msg, (Instruction.mk "contextual_notification" "medium"
          (InstructionData.complete_required_fields msg)
          ∈ generate_instructions ctxSignup (analyze_context ctxSignup) ∧
        strContains msg "1 required field" = true)) := by
  refine ⟨by decide, by decide, by decide, by decide, by decide,
    ⟨"Please complete 1 required fields to continue", by decide, by decide⟩⟩

/-- C8 counterexample: a history consisting of one form-type snapshot with an
empty required input.  The claim demands the `form_abandonment` pattern
whenever any form-type snapshot has an empty required field, but the code
requires strictly more than one form-type snapshot (and a history of length
at least 2), so the returned patterns are empty here. -/
theorem claim_C8_counterexample :
    determine_page_type ctxFormAbandon = "form" ∧
    hasEmptyRequiredInput ctxFormAbandon = true ∧
    analyze_user_behavior [ctxFormAbandon] =
      some (UserBehavior.mk 1 ["form"] []) := by
  refine ⟨by decide, by decide, by decide⟩

/-- C8 (amended: at least two form-type snapshots are required, and the
empty required field is looked for among the snapshot's page-level inputs):
whenever more than one history snapshot classifies as `"form"` and at least
one form-type snapshot has an empty required input, `analyze_user_behavior`
returns a result whose behavior patterns contain `"form_abandonment"`. -/
theorem claim_C8 (context_history : List PageContext)
    (h2 : (context_history.filter (fun c => determine_page_type c == "form")).length > 1)
    (he : (context_history.filter (fun c => determine_page_type c == "form")).any
        hasEmptyRequiredInput = true) :
    ∃ ub, analyze_user_behavior context_history = some ub ∧
      "form_abandonment" ∈ ub.behavior_patterns := by
  have hlen : 2 ≤ context_history.length := by
    have := List.length_filter_le (fun c => determine_page_type c == "form")
      context_history
    omega
  have hne : context_history.isEmpty = false := by
    cases context_history with
    | nil => simp at hlen
    | cons a t => rfl
  have hval : analyze_user_behavior context_history =
      some (UserBehavior.mk ((context_history.map (fun c => c.url)).dedup).length
        ((context_history.map determine_page_type).dedup)
        (identify_behavior_patterns context_history)) := by
    unfold analyze_user_behavior
    rw [hne]
    rfl
  refine ⟨_, hval, ?_⟩
  unfold identify_behavior_patterns
  have hnl : ¬ context_history.length < 2 := by omega
  simp only [if_neg hnl]
  simp [h2, he]

/-- Witness for C8: two form snapshots with an empty required input. -/
theorem claim_C8_witness :
    ∃ ub, analyze_user_behavior [ctxFormAbandon, ctxFormAbandon] = some ub ∧
      "form_abandonment" ∈ ub.behavior_patterns :=
  claim_C8 [ctxFormAbandon, ctxFormAbandon] (by decide) (by decide)

/-- C9 counterexample: handling a `context_change` message from the initial
state leaves `context_storage` empty (no URL-keyed or "default" snapshot is
stored) and emits no acknowledgment at all — for this DOM-less context the
analysis generates no instructions, so the outbound list is empty, whereas
the same payload as a `context` message is acknowledged. -/
theorem claim_C9_counterexample :
    (handle_message initServerState "s" (WsIncoming.context_change ctxPlain)).1.context_storage
        = [] ∧
    (handle_message initServerState "s" (WsIncoming.context_change ctxPlain)).2 = [] ∧
    (handle_message initServerState "s" (WsIncoming.context ctxPlain)).2 =
      [WsOutgoing.context_received] := by
  refine ⟨by decide, by decide, by decide⟩

/-- C9 (amended: `context_change` runs the same analysis, streaming and
history append as `context`, but stores nothing in `context_storage` and
sends no acknowledgment): for every state, session and deserialized payload,
the `context_change` handler leaves the context storage unchanged, updates
the session history exactly as the `context` handler does, streams the same
instruction messages, and never emits the `context_received` acknowledgment
— while the `context` handler stores the snapshot under its URL and under
`"default"` and appends the acknowledgment. -/
theorem claim_C9 (st : ServerState) (session_id : String) (ctx : PageContext) :
    (handle_message st session_id (WsIncoming.context_change ctx)).1.context_storage
        = st.context_storage ∧
    (handle_message st session_id (WsIncoming.context_change ctx)).1.context_history
        = (handle_message st session_id (WsIncoming.context ctx)).1.context_history ∧
    (handle_message st session_id (WsIncoming.context ctx)).1.context_storage
        = setKey (setKey st.context_storage ctx.url ctx) "default" ctx ∧
    (handle_message st session_id (WsIncoming.context_change ctx)).2
          ++ [WsOutgoing.context_received]
        = (handle_message st session_id (WsIncoming.context ctx)).2 ∧
    WsOutgoing.context_received ∉
      (handle_message st session_id (WsIncoming.context_change ctx)).2 := by
  refine ⟨rfl, rfl, rfl, rfl, ?_⟩
  simp [handle_message, analyze_and_send_instructions, List.mem_map]

/-- The per-issue bonus term of the confidence score is nonnegative. -/
theorem issueBonus_nonneg (n : Nat) : (0 : ℚ) ≤ min 0.2 ((n : ℚ) * 0.05) :=
  le_min (by norm_num) (by positivity)

/-- The sequentially accumulated confidence equals the closed-form sum of
the base and the four conditional bonuses, clamped above by 1. -/
theorem calculate_confidence_eq (context : PageContext)
    (issues : List ContextAnalysisIssue) (s : List ContextAnalysisSuggestion) :
    calculate_confidence context issues s =
      min 1 ((0.5 : ℚ)
        + (if domTextTruthy context then (0.2 : ℚ) else 0)
        + (if domFormsTruthy context then (0.1 : ℚ) else 0)
        + (if context.viewport.isSome then (0.1 : ℚ) else 0)
        + (if !issues.isEmpty then min 0.2 ((issues.length : ℚ) * 0.05) else 0)) := by
  unfold calculate_confidence
  split_ifs <;> (congr 1 <;> ring_nf)

/-- The confidence never exceeds 1. -/
theorem calculate_confidence_le_one (context : PageContext)
    (issues : List ContextAnalysisIssue) (s : List ContextAnalysisSuggestion) :
    calculate_confidence context issues s ≤ 1 := by
  simp only [calculate_confidence]
  exact min_le_left _ _

/-- The confidence is never negative. -/
theorem calculate_confidence_nonneg (context : PageContext)
    (issues : List ContextAnalysisIssue) (s : List ContextAnalysisSuggestion) :
    0 ≤ calculate_confidence context issues s := by
  rw [calculate_confidence_eq]
  refine le_min (by norm_num) ?_
  have h := issueBonus_nonneg issues.length
  split_ifs <;> linarith

/-- C7: the confidence equals the clamp to at most 1 of 0.5 plus 0.2 for
present DOM text, 0.1 for a present form, 0.1 for a present viewport, and
`min(0.2, 0.05·issues)` when issues were found; consequently both the raw
score and the confidence reported by `analyze_context` always lie in
`[0, 1]`. -/
theorem claim_C7 (context : PageContext) (issues : List ContextAnalysisIssue)
    (suggestions : List ContextAnalysisSuggestion) :
    calculate_confidence context issues suggestions =
      min 1 ((0.5 : ℚ)
        + (if domTextTruthy context then (0.2 : ℚ) else 0)
        + (if domFormsTruthy context then (0.1 : ℚ) else 0)
        + (if context.viewport.isSome then (0.1 : ℚ) else 0)
        + (if !issues.isEmpty then min 0.2 ((issues.length : ℚ) * 0.05) else 0)) ∧
    0 ≤ calculate_confidence context issues suggestions ∧
    calculate_confidence context issues suggestions ≤ 1 ∧
    0 ≤ (analyze_context context).confidence ∧
    (analyze_context context).confidence ≤ 1 :=
  ⟨calculate_confidence_eq context issues suggestions,
   calculate_confidence_nonneg context issues suggestions,
   calculate_confidence_le_one context issues suggestions,
   calculate_confidence_nonneg context (identify_issues context)
     (generate_suggestions context (determine_page_type context)
       (identify_issues context)),
   calculate_confidence_le_one context (identify_issues context)
     (generate_suggestions context (determine_page_type context)
       (identify_issues context))⟩

/-- Looking up the key just set in an association list yields the new value. -/
theorem getKey_setKey {α : Type} (l : List (String × α)) (k : String) (v : α) :
    getKey (setKey l k v) k = some v := by
  induction l with
  | nil => simp [setKey, getKey]
  | cons p t ih =>
    obtain ⟨k2, v2⟩ := p
    by_cases h : k2 == k
    · simp [setKey, getKey, h]
    · simp only [setKey, getKey, h]
      simp [getKey, h, ih]

/-- Looking up an erased key yields nothing. -/
theorem getKey_eraseKey {α : Type} (l : List (String × α)) (k : String) :
    getKey (eraseKey l k) k = none := by
  induction l with
  | nil => rfl
  | cons p t ih =>
    obtain ⟨k2, v2⟩ := p
    by_cases h : k2 == k
    · simpa [eraseKey, List.filter_cons, h] using ih
    · simp only [eraseKey, List.filter_cons, h] at ih ⊢
      simp [getKey, h, ih]

/-- Handling one `context` message replaces this session's history with the
trimmed extension of the previous history by the new snapshot. -/
theorem context_step_history (st : ServerState) (session_id : String)
    (ctx : PageContext) :
    (handle_message st session_id (WsIncoming.context ctx)).1.context_history =
      setKey st.context_history session_id
        (trimHistory ((getKey st.context_history session_id).getD [] ++ [ctx])) := rfl

/-- Trimming after appending one element to a last-10 suffix is the last-10
suffix of the extended list. -/
theorem trimHistory_drop (l : List PageContext) (x : PageContext) :
    trimHistory (l.drop (l.length - 10) ++ [x]) =
      (l ++ [x]).drop ((l ++ [x]).length - 10) := by
  unfold trimHistory
  rcases Nat.lt_or_ge l.length 10 with h | h
  · have h0 : l.length - 10 = 0 := by omega
    rw [h0, List.drop_zero]
    have hc : ¬ ((l ++ [x]).length > 10) := by
      simp only [List.length_append, List.length_cons, List.length_nil]
      omega
    rw [if_neg hc]
    have h1 : (l ++ [x]).length - 10 = 0 := by
      simp only [List.length_append, List.length_cons, List.length_nil]
      omega
    rw [h1, List.drop_zero]
  · have hd : (l.drop (l.length - 10)).length = 10 := by
      rw [List.length_drop]
      omega
    have hc : ((l.drop (l.length - 10)) ++ [x]).length > 10 := by
      simp only [List.length_append, List.length_cons, List.length_nil, hd]
      omega
    rw [if_pos hc]
    have h11 : ((l.drop (l.length - 10)) ++ [x]).length - 10 = 1 := by
      simp only [List.length_append, List.length_cons, List.length_nil, hd]
    have h2 : (l ++ [x]).length - 10 = l.length - 9 := by
      simp only [List.length_append, List.length_cons, List.length_nil]
      omega
    rw [h11, h2]
    rw [List.drop_append_of_le_length (by omega : 1 ≤ (l.drop (l.length - 10)).length)]
    rw [List.drop_append_of_le_length (by omega : l.length - 9 ≤ l.length)]
    rw [List.drop_drop]
    congr 2
    omega

/-- C5: running a session over any sequence of `context` messages from the
initial server state leaves that session's stored history equal to the last
(at most) 10 messages in arrival order — so it never exceeds 10 entries and
the oldest are evicted first — and the disconnect handler discards the
session's history entirely. -/
theorem claim_C5 (session_id : String) (msgs : List PageContext) :
    (getKey (run_context_session initServerState session_id msgs).context_history
        session_id).getD [] = msgs.drop (msgs.length - 10) ∧
    ((getKey (run_context_session initServerState session_id msgs).context_history
        session_id).getD []).length ≤ 10 ∧
    getKey (ws_disconnect (run_context_session initServerState session_id msgs)
        session_id).context_history session_id = none := by
  have hmain : ∀ ms : List PageContext,
      (getKey (run_context_session initServerState session_id ms).context_history
        session_id).getD [] = ms.drop (ms.length - 10) := by
    intro ms
    induction ms using List.reverseRecOn with
    | nil => rfl
    | append_singleton l a ih =>
      have hrun : run_context_session initServerState session_id (l ++ [a]) =
          (handle_message (run_context_session initServerState session_id l)
            session_id (WsIncoming.context a)).1 := by
        simp [run_context_session, List.foldl_append]
      rw [hrun, context_step_history, getKey_setKey, Option.getD_some, ih]
      exact trimHistory_drop l a
  refine ⟨hmain msgs, ?_, getKey_eraseKey _ _⟩
  rw [hmain msgs, List.length_drop]
  omega

/-- Counting over a flattened map is the sum of the per-element counts. -/
theorem countP_flatten_map {α β : Type} (g : α → List β) (p : β → Bool)
    (l : List α) :
    ((l.map g).flatten).countP p = (l.map (fun a => (g a).countP p)).sum := by
  induction l with
  | nil => rfl
  | cons a t ih => simp [List.countP_append, ih]

/-- Counting with a predicate that holds of every mapped element gives the
list length. -/
theorem countP_map_const_true {α β : Type} (p : β → Bool) (g : α → β)
    (l : List α) (h : ∀ x, p (g x) = true) : (l.map g).countP p = l.length := by
  induction l with
  | nil => rfl
  | cons a t ih => simp [List.countP_cons, h, ih]

/-- Counting with a predicate that fails of every mapped element gives 0. -/
theorem countP_map_const_false {α β : Type} (p : β → Bool) (g : α → β)
    (l : List α) (h : ∀ x, p (g x) = false) : (l.map g).countP p = 0 := by
  induction l with
  | nil => rfl
  | cons a t ih => simp [List.countP_cons, h, ih]

/-- The per-field highlight instruction is a highlight instruction. -/
theorem highlight_instr_true (f : InputData) :
    isHighlightField (Instruction.mk "form_assistance" "medium"
      (InstructionData.highlight_field (selector_for f)
        ("This field is required: "
          ++ pyOrStr f.name (some (pyOrStr f.id (some "Field")))))) = true := rfl

/-- The per-field highlight instruction is not an aggregate notification. -/
theorem highlight_instr_not_aggregate (f : InputData) :
    isAggregateNotice (Instruction.mk "form_assistance" "medium"
      (InstructionData.highlight_field (selector_for f)
        ("This field is required: "
          ++ pyOrStr f.name (some (pyOrStr f.id (some "Field")))))) = false := rfl

/-- One form contributes `min 3 e` highlight instructions, where `e` is its
number of empty required fields. -/
theorem form_highlight_count (form : FormData) :
    (form_instructions_for form).countP isHighlightField =
      min 3 (required_empty_fields form).length := by
  simp only [form_instructions_for, List.countP_append]
  rw [countP_map_const_true isHighlightField _ _ highlight_instr_true,
    List.length_take]
  split <;> simp [List.countP_cons, isHighlightField]

/-- One form contributes exactly one aggregate notification iff it has an
empty required field. -/
theorem form_aggregate_count (form : FormData) :
    (form_instructions_for form).countP isAggregateNotice =
      if (required_empty_fields form).isEmpty then 0 else 1 := by
  simp only [form_instructions_for, List.countP_append]
  rw [countP_map_const_false isAggregateNotice _ _ highlight_instr_not_aggregate]
  rcases h : required_empty_fields form with _ | ⟨f, t⟩ <;>
    simp [List.countP_cons, isAggregateNotice]

/-- The per-form form instructions, flattened over all forms, contribute one
aggregate notification per form with an empty required field. -/
theorem forms_aggregate_count (forms : List FormData) :
    ((forms.map form_instructions_for).flatten).countP isAggregateNotice =
      (forms.filter (fun form => !(required_empty_fields form).isEmpty)).length := by
  induction forms with
  | nil => rfl
  | cons f t ih =>
    simp only [List.map_cons, List.flatten_cons, List.countP_append, ih,
      List.filter_cons, form_aggregate_count]
    cases hq : (required_empty_fields f).isEmpty <;> simp [hq] <;> omega

/-- The per-form form instructions, flattened over all forms, contribute
`min 3 e` highlights per form. -/
theorem forms_highlight_count (forms : List FormData) :
    ((forms.map form_instructions_for).flatten).countP isHighlightField =
      (forms.map (fun form => min 3 (required_empty_fields form).length)).sum := by
  induction forms with
  | nil => rfl
  | cons f t ih =>
    simp only [List.map_cons, List.flatten_cons, List.countP_append, ih,
      List.sum_cons, form_highlight_count]

/-- The usability instructions contain no highlight instruction. -/
theorem usability_highlight_count (context : PageContext) :
    (generate_usability_instructions context).countP isHighlightField = 0 := by
  unfold generate_usability_instructions
  rcases context.viewport with _ | v
  · rfl
  · split <;> simp [List.countP_cons, isHighlightField]

/-- The usability instructions contain no aggregate notification. -/
theorem usability_aggregate_count (context : PageContext) :
    (generate_usability_instructions context).countP isAggregateNotice = 0 := by
  unfold generate_usability_instructions
  rcases context.viewport with _ | v
  · rfl
  · split <;> simp [List.countP_cons, isAggregateNotice]

/-- Instructions derived from one issue contain no highlight instruction. -/
theorem issue_highlight_count (issue : ContextAnalysisIssue) :
    (generate_issue_instructions issue).countP isHighlightField = 0 := by
  unfold generate_issue_instructions
  split_ifs <;> simp [List.countP_cons, isHighlightField]

/-- Instructions derived from one issue contain no aggregate notification. -/
theorem issue_aggregate_count (issue : ContextAnalysisIssue) :
    (generate_issue_instructions issue).countP isAggregateNotice = 0 := by
  unfold generate_issue_instructions
  split_ifs <;> simp [List.countP_cons, isAggregateNotice]

/-- The issue-based instructions, over any issue list, contain no highlight
instruction. -/
theorem issues_highlight_count (issues : List ContextAnalysisIssue) :
    ((issues.map generate_issue_instructions).flatten).countP isHighlightField = 0 := by
  induction issues with
  | nil => rfl
  | cons i t ih => simp [List.countP_append, ih, issue_highlight_count]

/-- The issue-based instructions, over any issue list, contain no aggregate
notification. -/
theorem issues_aggregate_count (issues : List ContextAnalysisIssue) :
    ((issues.map generate_issue_instructions).flatten).countP isAggregateNotice = 0 := by
  induction issues with
  | nil => rfl
  | cons i t ih => simp [List.countP_append, ih, issue_aggregate_count]

/-- The per-form capped counts sum to at most the uncapped counts. -/
theorem sum_min3_le_sum (forms : List FormData) :
    ((forms.map (fun form => min 3 (required_empty_fields form).length)).sum : Nat) ≤
      (forms.map (fun form => (required_empty_fields form).length)).sum := by
  induction forms with
  | nil => exact Nat.le_refl _
  | cons f t ih =>
    simp only [List.map_cons, List.sum_cons]
    exact Nat.add_le_add (Nat.min_le_right _ _) ih

/-- The per-form capped counts sum to at most 3 per form with an empty
required field. -/
theorem sum_min3_le_three_mul (forms : List FormData) :
    ((forms.map (fun form => min 3 (required_empty_fields form).length)).sum : Nat) ≤
      3 * (forms.filter (fun form => !(required_empty_fields form).isEmpty)).length := by
  induction forms with
  | nil => simp
  | cons f t ih =>
    simp only [List.map_cons, List.sum_cons, List.filter_cons]
    cases hq : (required_empty_fields f).isEmpty
    · simp only [Bool.not_false, if_pos, List.length_cons]
      have h3 : min 3 (required_empty_fields f).length ≤ 3 := Nat.min_le_left _ _
      omega
    · have h0 : (required_empty_fields f).length = 0 := by
        simpa [List.isEmpty_iff, List.length_eq_zero] using hq
      simp [h0, hq, ih]

/-- C1 counterexample: a neutral-URL context whose DOM has two forms, each
with two empty required fields, satisfies the claim's premise, but the
generated instruction list carries one aggregate notification *per form*
(here 2, not exactly 1) and up to 3 highlights *per form* (here 4 > 3). -/
theorem claim_C1_counterexample :
    ((ctxTwoForms.dom.getD {}).forms.any
        (fun form => !(required_empty_fields form).isEmpty)) = true ∧
    (generate_instructions ctxTwoForms (analyze_context ctxTwoForms)).countP
        isAggregateNotice = 2 ∧
    (generate_instructions ctxTwoForms (analyze_context ctxTwoForms)).countP
        isHighlightField = 4 := by
  refine ⟨by decide, by decide, by decide⟩

/-- C1 (amended: the counts are per form, and the page must actually
classify as `"form"` for form instructions to be generated): for every
context whose analysis classifies it as `"form"`, the generated instructions
contain exactly one aggregate "complete required fields" notification per
form having at least one empty required field, and `min 3 e` highlight
instructions per form with `e` empty required fields — hence at most 3 per
such form and, in total, never more than the total number of empty required
fields. -/
theorem claim_C1 (context : PageContext)
    (h : (analyze_context context).pageType = "form") :
    (generate_instructions context (analyze_context context)).countP isAggregateNotice
        = (((context.dom.getD {}).forms).filter
            (fun form => !(required_empty_fields form).isEmpty)).length ∧
    (generate_instructions context (analyze_context context)).countP isHighlightField
        = (((context.dom.getD {}).forms).map
            (fun form => min 3 (required_empty_fields form).length)).sum ∧
    (generate_instructions context (analyze_context context)).countP isHighlightField
        ≤ 3 * (((context.dom.getD {}).forms).filter
            (fun form => !(required_empty_fields form).isEmpty)).length ∧
    (generate_instructions context (analyze_context context)).countP isHighlightField
        ≤ (((context.dom.getD {}).forms).map
            (fun form => (required_empty_fields form).length)).sum := by
  have hgen : generate_instructions context (analyze_context context) =
      generate_form_instructions context ++ (generate_usability_instructions context
        ++ ((analyze_context context).issues.map generate_issue_instructions).flatten) := by
    unfold generate_instructions
    rw [h]
    simp
  have hff : generate_form_instructions context =
      (((context.dom.getD {}).forms).map form_instructions_for).flatten := by
    unfold generate_form_instructions
    rcases context.dom with _ | d <;> rfl
  have hagg : (generate_instructions context (analyze_context context)).countP
      isAggregateNotice
        = (((context.dom.getD {}).forms).filter
            (fun form => !(required_empty_fields form).isEmpty)).length := by
    rw [hgen, List.countP_append, List.countP_append, hff, forms_aggregate_count,
      usability_aggregate_count, issues_aggregate_count]
    omega
  have hhl : (generate_instructions context (analyze_context context)).countP
      isHighlightField
        = (((context.dom.getD {}).forms).map
            (fun form => min 3 (required_empty_fields form).length)).sum := by
    rw [hgen, List.countP_append, List.countP_append, hff, forms_highlight_count,
      usability_highlight_count, issues_highlight_count]
    omega
  refine ⟨hagg, hhl, ?_, ?_⟩
  · rw [hhl]
    exact sum_min3_le_three_mul _
  · rw [hhl]
    exact sum_min3_le_sum _

/-- Witness for C1: a single form with two empty required fields yields one
aggregate notification and two highlights. -/
theorem claim_C1_witness :
    (generate_instructions ctxOneForm (analyze_context ctxOneForm)).countP
        isAggregateNotice = 1 ∧
    (generate_instructions ctxOneForm (analyze_context ctxOneForm)).countP
        isHighlightField = 2 := by
  have h := claim_C1 ctxOneForm (by decide)
  exact ⟨by rw [h.1]; decide, by rw [h.2.1]; decide⟩

end ContextBridge
